import Mathlib

/-!
Verification of the request/response normalization layer of a GitHub MCP
server (`server.py`).  The development shallowly embeds the Python source:

* JSON values are modelled by the inductive `Json`, together with executable
  models of the Python operations the handlers use on them (`truthy` for
  Python truthiness, `pyDictGet` for `dict.get(key, default)`, `pyContains`
  for the `in` operator, `pySubscript` for `data[key]`, `pyIter` for
  iteration, `pyStr` for `str()` as used by f-strings).
* Python exceptions that can escape a handler are modelled by `PyExc`;
  computations that may raise run in `Except PyExc`.
* The outcome of the single `httpx` call made by `make_github_request` is the
  environment of the model, `HttpOutcome`; a 2xx response carries its body as
  a `BodyContent` (empty, parsed JSON, or a JSON-decode failure together with
  the rendered text of the decode exception).
* `make_github_request` itself is split into the body of its `try` block
  (`tryGithubRequest`, whose `.error` constructor is a raised exception with
  its `str(e)` text) and the `except Exception` clause that downgrades every
  raised exception to a `{"error": ...}` dictionary.
* Python keyword-argument checking is modelled explicitly: each call site of
  `make_github_request` records the keyword names it uses, and a keyword that
  is not a declared parameter of `make_github_request` raises `TypeError`
  before the request is issued (`call_make_github_request`).
* The two-step handlers additionally thread an oracle
  `GithubRequest → HttpOutcome` standing for the upstream server and return
  the list of requests actually issued, so that protocol claims ("the second
  call is never issued") are statable.
-/

/-- Structured JSON values, the payloads exchanged with the GitHub API. -/
inductive Json where
  | null
  | bool (b : Bool)
  | num (n : Int)
  | str (s : String)
  | arr (elems : List Json)
  | obj (fields : List (String × Json))

mutual

/-- Equality test on JSON values (Python `==` restricted to JSON shapes). -/
def Json.beq : Json → Json → Bool
  | .null, .null => true
  | .bool a, .bool b => a == b
  | .num a, .num b => a == b
  | .str a, .str b => a == b
  | .arr a, .arr b => beqElems a b
  | .obj a, .obj b => beqFields a b
  | _, _ => false

/-- Pointwise equality of JSON arrays. -/
def beqElems : List Json → List Json → Bool
  | [], [] => true
  | a :: as, b :: bs => Json.beq a b && beqElems as bs
  | _, _ => false

/-- Pointwise equality of JSON object field lists. -/
def beqFields : List (String × Json) → List (String × Json) → Bool
  | [], [] => true
  | (k, v) :: as, (l, w) :: bs => k == l && Json.beq v w && beqFields as bs
  | _, _ => false

end

instance : BEq Json := ⟨Json.beq⟩

/-- Python truthiness of a JSON value (`bool(x)`): `None`, `False`, `0`, `""`,
`[]` and `{}` are falsy, everything else is truthy. -/
def Json.truthy : Json → Bool
  | .null => false
  | .bool b => b
  | .num n => n != 0
  | .str s => s != ""
  | .arr xs => !xs.isEmpty
  | .obj fs => !fs.isEmpty

/-- Python type name of a JSON value, as it appears in exception messages. -/
def Json.typeName : Json → String
  | .null => "NoneType"
  | .bool _ => "bool"
  | .num _ => "int"
  | .str _ => "str"
  | .arr _ => "list"
  | .obj _ => "dict"

mutual

/-- Python `repr()` of a JSON value. -/
def pyRepr : Json → String
  | .null => "None"
  | .bool true => "True"
  | .bool false => "False"
  | .num n => toString n
  | .str s => "\x27" ++ s ++ "\x27"
  | .arr xs => "[" ++ pyReprElems xs ++ "]"
  | .obj fs => "\x7b" ++ pyReprFields fs ++ "\x7d"

/-- Comma-separated reprs of the elements of a list. -/
def pyReprElems : List Json → String
  | [] => ""
  | [x] => pyRepr x
  | x :: xs => pyRepr x ++ ", " ++ pyReprElems xs

/-- Comma-separated `'key': repr(value)` renderings of a dict. -/
def pyReprFields : List (String × Json) → String
  | [] => ""
  | [(k, v)] => "\x27" ++ k ++ "\x27: " ++ pyRepr v
  | (k, v) :: fs => "\x27" ++ k ++ "\x27: " ++ pyRepr v ++ ", " ++ pyReprFields fs

end

/-- Python `str()` of a JSON value, as interpolated by f-strings: a string
renders as itself, everything else as its repr (`str(None) = "None"`,
`str(False) = "False"`, numbers in decimal). -/
def pyStr : Json → String
  | .str s => s
  | j => pyRepr j

/-- Python exceptions that can propagate out of a handler. -/
inductive PyExc where
  | typeError (msg : String)
  | attributeError (msg : String)
  | keyError (key : String)

/-- First value bound to `key` in a JSON object's field list (Python dicts
have unique keys; insertion order is preserved). -/
def lookupField : List (String × Json) → String → Option Json
  | [], _ => none
  | (k, v) :: fs, key => if k = key then some v else lookupField fs key

/-- Python `data.get(key, default)`: defined on dicts, raises
`AttributeError` on every other type (in particular on lists). -/
def pyDictGet : Json → String → Json → Except PyExc Json
  | .obj fs, key, dflt => .ok ((lookupField fs key).getD dflt)
  | j, _, _ =>
    .error (.attributeError
      ("\x27" ++ j.typeName ++ "\x27 object has no attribute \x27get\x27"))

/-- Does `sub` occur as a contiguous substring of `s`? -/
def strContainsSubstr (s sub : String) : Bool :=
  (List.range (s.length + 1)).any (fun i => (s.drop i).startsWith sub)

/-- Python `key in data`: key membership on dicts, element membership on
lists, substring test on strings, `TypeError` otherwise. -/
def pyContains : Json → String → Except PyExc Bool
  | .obj fs, key => .ok (fs.any (fun p => p.1 == key))
  | .arr xs, key => .ok (xs.any (fun x => x == Json.str key))
  | .str s, key => .ok (strContainsSubstr s key)
  | j, _ =>
    .error (.typeError
      ("argument of type \x27" ++ j.typeName ++ "\x27 is not iterable"))

/-- Python `data[key]` with a string key. -/
def pySubscript : Json → String → Except PyExc Json
  | .obj fs, key =>
    match lookupField fs key with
    | some v => .ok v
    | none => .error (.keyError key)
  | .arr _, _ => .error (.typeError "list indices must be integers or slices, not str")
  | j, _ =>
    .error (.typeError
      ("\x27" ++ j.typeName ++ "\x27 object is not subscriptable"))

/-- Python iteration over a JSON value: a list yields its elements, a string
its characters, a dict its keys; other types raise `TypeError`. -/
def pyIter : Json → Except PyExc (List Json)
  | .arr xs => .ok xs
  | .str s => .ok (s.toList.map (fun c => Json.str (String.mk [c])))
  | .obj fs => .ok (fs.map (fun p => Json.str p.1))
  | j =>
    .error (.typeError ("\x27" ++ j.typeName ++ "\x27 object is not iterable"))

/-- Python slice `data[:10]`, defined on lists and strings. -/
def pySliceTen : Json → Except PyExc Json
  | .arr xs => .ok (.arr (xs.take 10))
  | .str s => .ok (.str (s.take 10))
  | j =>
    .error (.typeError
      ("\x27" ++ j.typeName ++ "\x27 object is not subscriptable"))

/-- Sequential evaluation of a list comprehension `[f(x) for x in xs]`: the
first raised exception propagates. -/
def mapExcept (f : Json → Except PyExc String) : List Json → Except PyExc (List String)
  | [] => .ok []
  | x :: xs =>
    match f x with
    | .error e => .error e
    | .ok y =>
      match mapExcept f xs with
      | .error e => .error e
      | .ok ys => .ok (y :: ys)

/-- Python `sep.join(x)`: every joined item must be a string. -/
def pyJoin (sep : String) (j : Json) : Except PyExc String :=
  match j with
  | .arr xs =>
    match allStrings xs with
    | some ss => .ok (String.intercalate sep ss)
    | none => .error (.typeError "sequence item: expected str instance")
  | .str s => .ok (String.intercalate sep (s.toList.map (fun c => String.mk [c])))
  | other =>
    .error (.typeError ("can only join an iterable, not " ++ other.typeName))
where
  /-- Extract the underlying strings when every element is a JSON string. -/
  allStrings : List Json → Option (List String)
    | [] => some []
    | .str s :: xs => (allStrings xs).map (fun ss => s :: ss)
    | _ => none

/-- Alphabet of standard base64. -/
def base64Alphabet : List Char :=
  "ABCDEFGHIJKLMNOPQRSTUVWXYZabcdefghijklmnopqrstuvwxyz0123456789+/".toList

/-- Character of the base64 alphabet at index `n < 64`. -/
def b64Char (n : Nat) : Char := base64Alphabet.getD n 'A'

/-- Standard base64 of a byte sequence, with `=` padding
(Python `base64.b64encode`). -/
def b64encodeBytes : List Nat → String
  | [] => ""
  | [a] =>
    String.mk [b64Char (a / 4), b64Char (a % 4 * 16), '=', '=']
  | [a, b] =>
    String.mk [b64Char (a / 4), b64Char (a % 4 * 16 + b / 16), b64Char (b % 16 * 4), '=']
  | a :: b :: c :: rest =>
    String.mk [b64Char (a / 4), b64Char (a % 4 * 16 + b / 16),
      b64Char (b % 16 * 4 + c / 64), b64Char (c % 64)] ++ b64encodeBytes rest

/-- Python `base64.b64encode(content.encode()).decode()`: base64 of the
UTF-8 encoding of a string. -/
def b64encode (s : String) : String :=
  b64encodeBytes (s.toUTF8.toList.map (fun byte => byte.toNat))

/-- Body of a 2xx response, as observed by `make_github_request`:
`response.content` empty, or a body that `response.json()` parses to a JSON
value, or a body on which `response.json()` raises (with the rendered text
of the raised decode exception). -/
inductive BodyContent where
  | empty
  | json (j : Json)
  | nonJson (excStr : String)

/-- Outcome of the single `httpx` call a handler's request gives rise to:
either `client.request` itself raised (DNS failure, connection refused,
timeout, TLS failure, ... — `excStr` is the rendered `str(e)`), or a response
arrived with a status code, reason phrase and body. -/
inductive HttpOutcome where
  | raised (excStr : String)
  | response (status : Nat) (reason : String) (body : BodyContent)

/-- One outbound request as issued by `make_github_request`: URL, HTTP
method, and optional JSON payload. -/
structure GithubRequest where
  url : String
  method : String
  payload : Option Json

/-- Base URL constant of the server (`GITHUB_API_BASE`). -/
def GITHUB_API_BASE : String := "https://api.github.com"

/-- Rendered text of the `httpx.HTTPStatusError` raised by
`Response.raise_for_status` on a non-2xx response, modelled from httpx's
`Response.raise_for_status`: the message is built from the status class, the
status code, the reason phrase and the request URL — the response body is
never consulted. -/
def httpStatusErrorStr (status : Nat) (reason url : String) : String :=
  let errorType :=
    if status / 100 = 1 then "Informational response"
    else if status / 100 = 3 then "Redirect response"
    else if status / 100 = 4 then "Client error"
    else if status / 100 = 5 then "Server error"
    else "Invalid status code"
  errorType ++ " \x27" ++ toString status ++ " " ++ reason ++ "\x27 for url \x27" ++ url ++
    "\x27\nFor more information check: https://developer.mozilla.org/en-US/docs/Web/HTTP/Status/" ++
    toString status

/-- Body of the `try` block of `make_github_request`: perform the call,
`raise_for_status`, then `response.json() if response.content else {}`.
An `.error` is a raised exception carrying its `str(e)` text;
`raise_for_status` raises exactly when the status is not 2xx. -/
def tryGithubRequest (url : String) (o : HttpOutcome) : Except String Json :=
  match o with
  | .raised excStr => .error excStr
  | .response status reason body =>
    if 200 ≤ status ∧ status < 300 then
      match body with
      | .empty => .ok (Json.obj [])
      | .json j => .ok j
      | .nonJson excStr => .error excStr
    else
      .error (httpStatusErrorStr status reason url)

/-- Model of `make_github_request(url, method, json)` (header construction is
a pure computation with no effect on the result and is elided): the `except
Exception` clause downgrades every exception raised inside the `try` block to
the dictionary `{"error": f"GitHub API request failed: {str(e)}"}`. -/
def make_github_request (url : String) (o : HttpOutcome) : Json :=
  match tryGithubRequest url o with
  | .ok j => j
  | .error e => Json.obj [("error", Json.str ("GitHub API request failed: " ++ e))]

/-- Keyword parameter names accepted by `make_github_request`, from its
`def` line: `make_github_request(url, method="GET", json=None)`. -/
def makeGithubRequestKeywords : List String := ["url", "method", "json"]

/-- First keyword argument of a call that is not a declared parameter of
`make_github_request`, if any. -/
def unexpectedKwarg (kwargs : List String) : Option String :=
  kwargs.find? (fun k => !(makeGithubRequestKeywords.contains k))

/-- The `TypeError` Python raises when a call passes a keyword argument the
callee does not declare. -/
def kwargTypeError (k : String) : PyExc :=
  .typeError
    ("make_github_request() got an unexpected keyword argument \x27" ++ k ++ "\x27")

/-- Python call semantics for `await make_github_request(url, ...)` at a call
site whose keyword-argument names are `kwargs`: an undeclared keyword raises
`TypeError` at the call, before any request is issued; otherwise the function
body runs against the outcome `o` of the HTTP call. -/
def call_make_github_request (url : String) (kwargs : List String) (o : HttpOutcome) :
    Except PyExc Json :=
  match unexpectedKwarg kwargs with
  | some k => .error (kwargTypeError k)
  | none => .ok (make_github_request url o)

/-- Call semantics as `call_make_github_request`, for the two-step handlers:
the upstream is an oracle from issued request to outcome, and the issued
request is returned alongside the result so that call traces are statable. -/
def call_make_github_request_at (oracle : GithubRequest → HttpOutcome)
    (url : String) (kwargs : List String) (method : String) (payload : Option Json) :
    Except PyExc (Json × GithubRequest) :=
  match unexpectedKwarg kwargs with
  | some k => .error (kwargTypeError k)
  | none =>
    let req : GithubRequest := ⟨url, method, payload⟩
    .ok (make_github_request url (oracle req), req)

/-- Model of `format_repository`. -/
def format_repository (repo : Json) : Except PyExc String := do
  let full_name ← pyDictGet repo "full_name" (.str "Unknown")
  let description ← pyDictGet repo "description" (.str "No description")
  let stars ← pyDictGet repo "stargazers_count" (.num 0)
  let html_url ← pyDictGet repo "html_url" (.str "No URL")
  pure ("Name: " ++ pyStr full_name ++ "\nDescription: " ++ pyStr description ++
    "\nStars: " ++ pyStr stars ++ "\nURL: " ++ pyStr html_url)

/-- Model of `format_issue`. -/
def format_issue (issue : Json) : Except PyExc String := do
  let number ← pyDictGet issue "number" (.str "Unknown")
  let title ← pyDictGet issue "title" (.str "No title")
  let state ← pyDictGet issue "state" (.str "Unknown")
  let html_url ← pyDictGet issue "html_url" (.str "No URL")
  pure ("Issue #" ++ pyStr number ++ "\nTitle: " ++ pyStr title ++
    "\nState: " ++ pyStr state ++ "\nURL: " ++ pyStr html_url)

/-- Model of `format_pull_request`. -/
def format_pull_request (pr : Json) : Except PyExc String := do
  let number ← pyDictGet pr "number" (.str "Unknown")
  let title ← pyDictGet pr "title" (.str "No title")
  let state ← pyDictGet pr "state" (.str "Unknown")
  let html_url ← pyDictGet pr "html_url" (.str "No URL")
  pure ("PR #" ++ pyStr number ++ "\nTitle: " ++ pyStr title ++
    "\nState: " ++ pyStr state ++ "\nURL: " ++ pyStr html_url)

/-- Model of `format_branch`. -/
def format_branch (branch : Json) : Except PyExc String := do
  let name ← pyDictGet branch "name" (.str "Unknown")
  let commit ← pyDictGet branch "commit" (.obj [])
  let sha ← pyDictGet commit "sha" (.str "Unknown")
  let links ← pyDictGet branch "_links" (.obj [])
  let html ← pyDictGet links "html" (.str "No URL")
  pure ("Name: " ++ pyStr name ++ "\nSHA: " ++ pyStr sha ++ "\nURL: " ++ pyStr html)

/-- Model of `format_webhook`. -/
def format_webhook (webhook : Json) : Except PyExc String := do
  let id ← pyDictGet webhook "id" (.str "Unknown")
  let type ← pyDictGet webhook "type" (.str "Unknown")
  let events ← pyDictGet webhook "events" (.arr [])
  let eventsTxt ← pyJoin ", " events
  let config ← pyDictGet webhook "config" (.obj [])
  let url ← pyDictGet config "url" (.str "No URL")
  let active ← pyDictGet webhook "active" (.bool false)
  pure ("ID: " ++ pyStr id ++ "\nType: " ++ pyStr type ++ "\nEvents: " ++ eventsTxt ++
    "\nURL: " ++ pyStr url ++ "\nActive: " ++ pyStr active)

/-- Model of the `search_repositories` tool. -/
def search_repositories (query : String) (per_page page : Int) (o : HttpOutcome) :
    Except PyExc String := do
  let url := GITHUB_API_BASE ++ "/search/repositories?q=" ++ query ++
    "&per_page=" ++ toString per_page ++ "&page=" ++ toString page
  let data ← call_make_github_request url [] o
  let cond ← if !data.truthy then pure true else do
    let c ← pyContains data "items"
    pure !c
  if cond then
    pure "Unable to fetch repositories or no repositories found."
  else do
    let items ← pySubscript data "items"
    if !items.truthy then
      pure "No repositories found for this query."
    else do
      let elems ← pyIter items
      let repos ← mapExcept format_repository elems
      pure (String.intercalate "\n---\n" repos)

/-- Model of the `create_issue` tool. -/
def create_issue (owner repo title body : String) (o : HttpOutcome) :
    Except PyExc String := do
  let url := GITHUB_API_BASE ++ "/repos/" ++ owner ++ "/" ++ repo ++ "/issues"
  let data ← call_make_github_request url ["method", "json"] o
  let cond ← if !data.truthy then pure true else pyContains data "error"
  if cond then
    let msg ← pyDictGet data "error" (.str "Unknown error")
    pure ("Unable to create issue: " ++ pyStr msg)
  else
    format_issue data

/-- Model of the `create_repository` tool. -/
def create_repository (name description : String) (priv : Bool) (o : HttpOutcome) :
    Except PyExc String := do
  let url := GITHUB_API_BASE ++ "/user/repos"
  let data ← call_make_github_request url ["method", "json"] o
  let cond ← if !data.truthy then pure true else pyContains data "error"
  if cond then
    let msg ← pyDictGet data "error" (.str "Unknown error")
    pure ("Unable to create repository: " ++ pyStr msg)
  else
    format_repository data

/-- Model of the `delete_repository` tool; note the success path requires
only that the result is falsy or lacks an `"error"` key. -/
def delete_repository (owner repo : String) (o : HttpOutcome) :
    Except PyExc String := do
  let url := GITHUB_API_BASE ++ "/repos/" ++ owner ++ "/" ++ repo
  let data ← call_make_github_request url ["method"] o
  let cond ← if data.truthy then pyContains data "error" else pure false
  if cond then
    let msg ← pyDictGet data "error" (.str "Unknown error")
    pure ("Unable to delete repository: " ++ pyStr msg)
  else
    pure ("Repository " ++ owner ++ "/" ++ repo ++ " deleted successfully.")

/-- Model of the `list_branches` tool. -/
def list_branches (owner repo : String) (o : HttpOutcome) :
    Except PyExc String := do
  let url := GITHUB_API_BASE ++ "/repos/" ++ owner ++ "/" ++ repo ++ "/branches"
  let data ← call_make_github_request url [] o
  let cond ← if !data.truthy then pure true else pyContains data "error"
  if cond then
    let msg ← pyDictGet data "error" (.str "Unknown error")
    pure ("Unable to list branches: " ++ pyStr msg)
  else if !data.truthy then
    pure "No branches found."
  else do
    let elems ← pyIter data
    let branches ← mapExcept format_branch elems
    pure (String.intercalate "\n---\n" branches)

/-- Model of the `create_branch` tool (resolve-then-create, two upstream
calls; returns the list of requests actually issued alongside the text). -/
def create_branch (owner repo branch_name source_branch : String)
    (oracle : GithubRequest → HttpOutcome) :
    Except PyExc (String × List GithubRequest) := do
  let url := GITHUB_API_BASE ++ "/repos/" ++ owner ++ "/" ++ repo ++
    "/git/refs/heads/" ++ source_branch
  let (data, req1) ← call_make_github_request_at oracle url [] "GET" none
  let cond ← if !data.truthy then pure true else pyContains data "error"
  if cond then
    let msg ← pyDictGet data "error" (.str "Unknown error")
    pure ("Unable to get source branch: " ++ pyStr msg, [req1])
  else do
    let objv ← pyDictGet data "object" (.obj [])
    let sha ← pyDictGet objv "sha" .null
    if !sha.truthy then
      pure ("Unable to get source branch SHA.", [req1])
    else do
      let url2 := GITHUB_API_BASE ++ "/repos/" ++ owner ++ "/" ++ repo ++ "/git/refs"
      let payload : Json := .obj
        [("ref", .str ("refs/heads/" ++ branch_name)), ("sha", sha)]
      let (data2, req2) ← call_make_github_request_at oracle url2 ["method", "json"]
        "POST" (some payload)
      let cond2 ← if !data2.truthy then pure true else pyContains data2 "error"
      if cond2 then
        let msg ← pyDictGet data2 "error" (.str "Unknown error")
        pure ("Unable to create branch: " ++ pyStr msg, [req1, req2])
      else
        pure ("Branch \x27" ++ branch_name ++ "\x27 created successfully from \x27" ++
          source_branch ++ "\x27.", [req1, req2])

/-- Model of the `delete_branch` tool. -/
def delete_branch (owner repo branch_name : String) (o : HttpOutcome) :
    Except PyExc String := do
  let url := GITHUB_API_BASE ++ "/repos/" ++ owner ++ "/" ++ repo ++
    "/git/refs/heads/" ++ branch_name
  let data ← call_make_github_request url ["method"] o
  let cond ← if data.truthy then pyContains data "error" else pure false
  if cond then
    let msg ← pyDictGet data "error" (.str "Unknown error")
    pure ("Unable to delete branch: " ++ pyStr msg)
  else
    pure ("Branch \x27" ++ branch_name ++ "\x27 deleted successfully.")

/-- Update (or append) a key of a JSON object, modelling Python dict item
assignment `payload[key] = v` (only ever applied to dict literals here). -/
def dictSet (j : Json) (key : String) (v : Json) : Json :=
  match j with
  | .obj fs => .obj (setField fs key v)
  | other => other
where
  /-- Replace the binding of `key` if present, else append it. -/
  setField : List (String × Json) → String → Json → List (String × Json)
    | [], key, v => [(key, v)]
    | (k, w) :: fs, key, v =>
      if k = key then (k, v) :: fs else (k, w) :: setField fs key v

/-- Model of the `create_or_update_file` tool (read-before-write, two
upstream calls; note that the first call passes the keyword argument
`params`, which `make_github_request` does not declare). -/
def create_or_update_file (owner repo path content message branch : String)
    (oracle : GithubRequest → HttpOutcome) :
    Except PyExc (String × List GithubRequest) := do
  let url := GITHUB_API_BASE ++ "/repos/" ++ owner ++ "/" ++ repo ++ "/contents/" ++ path
  let (existing_file, req1) ← call_make_github_request_at oracle url ["params"] "GET" none
  let payload : Json := .obj
    [("message", .str message), ("content", .str (b64encode content)),
     ("branch", .str branch)]
  let cond ← if existing_file.truthy then do
      let c ← pyContains existing_file "error"
      pure !c
    else pure false
  let payload2 ← if cond then do
      let sha ← pyDictGet existing_file "sha" .null
      pure (dictSet payload "sha" sha)
    else pure payload
  let (data, req2) ← call_make_github_request_at oracle url ["method", "json"]
    "PUT" (some payload2)
  let cond2 ← if !data.truthy then pure true else pyContains data "error"
  if cond2 then
    let msg ← pyDictGet data "error" (.str "Unknown error")
    pure ("Unable to create/update file: " ++ pyStr msg, [req1, req2])
  else
    pure ("File \x27" ++ path ++ "\x27 created/updated successfully in branch \x27" ++
      branch ++ "\x27.", [req1, req2])

/-- Model of the `create_pull_request` tool. -/
def create_pull_request (owner repo title head base body : String) (o : HttpOutcome) :
    Except PyExc String := do
  let url := GITHUB_API_BASE ++ "/repos/" ++ owner ++ "/" ++ repo ++ "/pulls"
  let data ← call_make_github_request url ["method", "json"] o
  let cond ← if !data.truthy then pure true else pyContains data "error"
  if cond then
    let msg ← pyDictGet data "error" (.str "Unknown error")
    pure ("Unable to create pull request: " ++ pyStr msg)
  else
    format_pull_request data

/-- Model of the `list_pull_requests` tool (note that its single call passes
the keyword argument `params`, which `make_github_request` does not
declare). -/
def list_pull_requests (owner repo state : String) (o : HttpOutcome) :
    Except PyExc String := do
  let url := GITHUB_API_BASE ++ "/repos/" ++ owner ++ "/" ++ repo ++ "/pulls"
  let data ← call_make_github_request url ["params"] o
  let cond ← if !data.truthy then pure true else pyContains data "error"
  if cond then
    let msg ← pyDictGet data "error" (.str "Unknown error")
    pure ("Unable to list pull requests: " ++ pyStr msg)
  else if !data.truthy then
    pure ("No " ++ state ++ " pull requests found.")
  else do
    let elems ← pyIter data
    let prs ← mapExcept format_pull_request elems
    pure (String.intercalate "\n---\n" prs)

/-- Model of the `merge_pull_request` tool. -/
def merge_pull_request (owner repo : String) (pull_number : Int) (commit_title : String)
    (o : HttpOutcome) : Except PyExc String := do
  let url := GITHUB_API_BASE ++ "/repos/" ++ owner ++ "/" ++ repo ++ "/pulls/" ++
    toString pull_number ++ "/merge"
  let _payload : Json :=
    if commit_title != "" then .obj [("commit_title", .str commit_title)] else .obj []
  let data ← call_make_github_request url ["method", "json"] o
  let cond ← if !data.truthy then pure true else pyContains data "error"
  if cond then
    let msg ← pyDictGet data "error" (.str "Unknown error")
    pure ("Unable to merge pull request: " ++ pyStr msg)
  else
    pure ("Pull request #" ++ toString pull_number ++ " merged successfully.")

/-- Model of the `create_webhook` tool. -/
def create_webhook (owner repo url : String) (events : List String) (o : HttpOutcome) :
    Except PyExc String := do
  let api_url := GITHUB_API_BASE ++ "/repos/" ++ owner ++ "/" ++ repo ++ "/hooks"
  let _payload : Json := .obj
    [("config", .obj [("url", .str url), ("content_type", .str "json")]),
     ("events", .arr (events.map Json.str)), ("active", .bool true)]
  let data ← call_make_github_request api_url ["method", "json"] o
  let cond ← if !data.truthy then pure true else pyContains data "error"
  if cond then
    let msg ← pyDictGet data "error" (.str "Unknown error")
    pure ("Unable to create webhook: " ++ pyStr msg)
  else
    format_webhook data

/-- Model of the `list_webhooks` tool. -/
def list_webhooks (owner repo : String) (o : HttpOutcome) :
    Except PyExc String := do
  let url := GITHUB_API_BASE ++ "/repos/" ++ owner ++ "/" ++ repo ++ "/hooks"
  let data ← call_make_github_request url [] o
  let cond ← if !data.truthy then pure true else pyContains data "error"
  if cond then
    let msg ← pyDictGet data "error" (.str "Unknown error")
    pure ("Unable to list webhooks: " ++ pyStr msg)
  else if !data.truthy then
    pure "No webhooks found."
  else do
    let elems ← pyIter data
    let webhooks ← mapExcept format_webhook elems
    pure (String.intercalate "\n---\n" webhooks)

/-- Model of the `delete_webhook` tool. -/
def delete_webhook (owner repo : String) (webhook_id : Int) (o : HttpOutcome) :
    Except PyExc String := do
  let url := GITHUB_API_BASE ++ "/repos/" ++ owner ++ "/" ++ repo ++ "/hooks/" ++
    toString webhook_id
  let data ← call_make_github_request url ["method"] o
  let cond ← if data.truthy then pyContains data "error" else pure false
  if cond then
    let msg ← pyDictGet data "error" (.str "Unknown error")
    pure ("Unable to delete webhook: " ++ pyStr msg)
  else
    pure ("Webhook " ++ toString webhook_id ++ " deleted successfully.")

/-- Formatting of one workflow run, from the f-string inside
`list_workflow_runs` (each `run.get(...)` defaults to `None`). -/
def format_workflow_run (run : Json) : Except PyExc String := do
  let id ← pyDictGet run "id" .null
  let name ← pyDictGet run "name" .null
  let status ← pyDictGet run "status" .null
  let conclusion ← pyDictGet run "conclusion" .null
  let html_url ← pyDictGet run "html_url" .null
  pure ("Run #" ++ pyStr id ++ "\nName: " ++ pyStr name ++ "\nStatus: " ++ pyStr status ++
    "\nConclusion: " ++ pyStr conclusion ++ "\nURL: " ++ pyStr html_url)

/-- Model of the `list_workflow_runs` tool (`workflow_id` defaults to
`None`; only the first 10 runs are formatted). -/
def list_workflow_runs (owner repo : String) (workflow_id : Option String)
    (o : HttpOutcome) : Except PyExc String := do
  let base_url := GITHUB_API_BASE ++ "/repos/" ++ owner ++ "/" ++ repo ++ "/actions/runs"
  let url :=
    match workflow_id with
    | some wid => if wid != "" then base_url ++ "/" ++ wid ++ "/runs" else base_url
    | none => base_url
  let data ← call_make_github_request url [] o
  let cond ← if !data.truthy then pure true else pyContains data "error"
  if cond then
    let msg ← pyDictGet data "error" (.str "Unknown error")
    pure ("Unable to list workflow runs: " ++ pyStr msg)
  else do
    let wr ← pyDictGet data "workflow_runs" (.arr [])
    if !wr.truthy then
      pure "No workflow runs found."
    else do
      let wr2 ← pyDictGet data "workflow_runs" (.arr [])
      let sliced ← pySliceTen wr2
      let elems ← pyIter sliced
      let runList ← mapExcept format_workflow_run elems
      pure (String.intercalate "\n---\n" runList)

/-- Twelve sample workflow-run objects, used to exercise the ten-run limit of
`list_workflow_runs`. -/
def sampleWorkflowRuns : List Json :=
  [Json.obj [("id", Json.num 1)], Json.obj [("id", Json.num 2)],
   Json.obj [("id", Json.num 3)], Json.obj [("id", Json.num 4)],
   Json.obj [("id", Json.num 5)], Json.obj [("id", Json.num 6)],
   Json.obj [("id", Json.num 7)], Json.obj [("id", Json.num 8)],
   Json.obj [("id", Json.num 9)], Json.obj [("id", Json.num 10)],
   Json.obj [("id", Json.num 11)], Json.obj [("id", Json.num 12)]]

theorem exceptBindOk {α β : Type} (a : α) (f : α → Except PyExc β) :
    (Except.ok a : Except PyExc α) >>= f = f a := rfl

theorem exceptBindErr {α β : Type} (e : PyExc) (f : α → Except PyExc β) :
    (Except.error e : Except PyExc α) >>= f = Except.error e := rfl

theorem exceptMapOk {α β : Type} (a : α) (f : α → β) :
    f <$> (Except.ok a : Except PyExc α) = Except.ok (f a) := rfl

theorem exceptMapErr {α β : Type} (e : PyExc) (f : α → β) :
    f <$> (Except.error e : Except PyExc α) = Except.error e := rfl

theorem exceptPureEq {α : Type} (a : α) :
    (pure a : Except PyExc α) = Except.ok a := rfl

theorem make_github_request_2xx_empty (url : String) (status : Nat) (reason : String)
    (h : 200 ≤ status ∧ status < 300) :
    make_github_request url (.response status reason .empty) = Json.obj [] := by
  simp only [make_github_request, tryGithubRequest]
  rw [if_pos h]

theorem make_github_request_2xx_json (url : String) (status : Nat) (reason : String)
    (j : Json) (h : 200 ≤ status ∧ status < 300) :
    make_github_request url (.response status reason (.json j)) = j := by
  simp only [make_github_request, tryGithubRequest]
  rw [if_pos h]

theorem make_github_request_non2xx (url : String) (status : Nat) (reason : String)
    (body : BodyContent) (h : ¬(200 ≤ status ∧ status < 300)) :
    make_github_request url (.response status reason body) =
      Json.obj [("error",
        Json.str ("GitHub API request failed: " ++ httpStatusErrorStr status reason url))] := by
  simp only [make_github_request, tryGithubRequest]
  rw [if_neg h]

theorem lookupField_any (fields : List (String × Json)) (k : String) (v : Json)
    (h : lookupField fields k = some v) : fields.any (fun p => p.1 == k) = true := by
  induction fields with
  | nil => simp [lookupField] at h
  | cons a fs ih =>
    obtain ⟨ka, va⟩ := a
    by_cases hk : ka = k
    · simp [hk]
    · simp only [lookupField, if_neg hk] at h
      simp [hk, ih h]

theorem lookupField_ne_nil (fields : List (String × Json)) (k : String) (v : Json)
    (h : lookupField fields k = some v) : fields.isEmpty = false := by
  cases fields with
  | nil => simp [lookupField] at h
  | cons a fs => rfl

theorem mapExcept_ok_of_ok (f : Json → Except PyExc String) (l : List Json)
    (h : ∀ r ∈ l, ∃ s, f r = .ok s) :
    ∃ strs, mapExcept f l = .ok strs ∧ strs.length = l.length := by
  induction l with
  | nil => exact ⟨[], rfl, rfl⟩
  | cons a t ih =>
    obtain ⟨s, hs⟩ := h a (List.mem_cons_self a t)
    obtain ⟨strs, hmap, hlen⟩ := ih (fun r hr => h r (List.mem_cons_of_mem _ hr))
    exact ⟨s :: strs, by simp [mapExcept, hs, hmap], by simp [hlen]⟩

/-- Claim C1: the claim says every handler is a total function returning a
string, in particular `list_pull_requests` (and `create_or_update_file`),
which call `make_github_request` with a `params` keyword argument.  The code
violates this: `make_github_request` declares no `params` parameter, so every
invocation of `list_pull_requests` raises `TypeError` at the call site —
before the executor's `try`/`except` can run — instead of returning a
string. -/
theorem claim1_list_pull_requests_raises_type_error
    (owner repo state : String) (o : HttpOutcome) :
    list_pull_requests owner repo state o = .error (kwargTypeError "params") := rfl

/-- Claim C2 counterexample: `create_webhook` against an upstream returning
HTTP 422 with body `\x7b"message":"Hook already exists"\x7d` does NOT return
the string `"Unable to create webhook: Hook already exists"`; the message
rendered is the transport library's status-error text, which never consults
the response body. -/
theorem claim2_counterexample_webhook_422 :
    create_webhook "o" "r" "https://example.com/cb" ["push"]
      (.response 422 "Unprocessable Entity"
        (.json (Json.obj [("message", Json.str "Hook already exists")]))) =
      .ok ("Unable to create webhook: " ++ ("GitHub API request failed: " ++
        httpStatusErrorStr 422 "Unprocessable Entity"
          (GITHUB_API_BASE ++ "/repos/" ++ "o" ++ "/" ++ "r" ++ "/hooks"))) ∧
    ("Unable to create webhook: " ++ ("GitHub API request failed: " ++
      httpStatusErrorStr 422 "Unprocessable Entity"
        (GITHUB_API_BASE ++ "/repos/" ++ "o" ++ "/" ++ "r" ++ "/hooks"))) ≠
      "Unable to create webhook: Hook already exists" :=
  ⟨rfl, by decide⟩

/-- Claim C2 (amended): on every non-2xx status, whatever the response body,
`create_webhook` returns the failure prefix followed by
`"GitHub API request failed: "` and the transport library's status-error text
(status class, code, reason phrase and URL) — the body's `"message"` field is
never consulted. -/
theorem claim2_non2xx_transport_message (owner repo hookUrl : String)
    (events : List String) (status : Nat) (reason : String) (bd : BodyContent)
    (h : ¬(200 ≤ status ∧ status < 300)) :
    create_webhook owner repo hookUrl events (.response status reason bd) =
      .ok ("Unable to create webhook: " ++ ("GitHub API request failed: " ++
        httpStatusErrorStr status reason
          (GITHUB_API_BASE ++ "/repos/" ++ owner ++ "/" ++ repo ++ "/hooks"))) := by
  have hm := make_github_request_non2xx
    (GITHUB_API_BASE ++ "/repos/" ++ owner ++ "/" ++ repo ++ "/hooks") status reason bd h
  simp [create_webhook, call_make_github_request, unexpectedKwarg,
    makeGithubRequestKeywords, hm, Json.truthy, pyDictGet, lookupField, pyStr, pyContains,
    exceptBindOk, exceptBindErr, exceptMapOk, exceptMapErr, exceptPureEq]

/-- Claim C2 witness: the amended statement instantiated at the 422 scenario
with an empty body. -/
theorem claim2_witness_422 :
    (¬(200 ≤ 422 ∧ 422 < 300)) ∧
    create_webhook "o" "r" "https://example.com/cb" ["push"]
      (.response 422 "Unprocessable Entity" .empty) =
      .ok ("Unable to create webhook: " ++ ("GitHub API request failed: " ++
        httpStatusErrorStr 422 "Unprocessable Entity"
          (GITHUB_API_BASE ++ "/repos/" ++ "o" ++ "/" ++ "r" ++ "/hooks"))) :=
  ⟨by decide, claim2_non2xx_transport_message "o" "r" "https://example.com/cb" ["push"]
    422 "Unprocessable Entity" .empty (by decide)⟩

/-- Claim C3: the claim describes the read-before-write protocol of
`create_or_update_file` (SHA included exactly when the prior GET succeeded).
The code never reaches that logic: the initial GET itself passes the keyword
argument `params`, which `make_github_request` does not declare, so every
invocation raises `TypeError` before any GET outcome exists and the PUT is
never issued. -/
theorem claim3_create_or_update_file_raises_type_error
    (owner repo path content message branch : String)
    (oracle : GithubRequest → HttpOutcome) :
    create_or_update_file owner repo path content message branch oracle =
      .error (kwargTypeError "params") := rfl

/-- Claim C4: the claim says a success response holding zero elements yields
the dedicated message `"No branches found."`.  The code instead raises
`AttributeError`: for the empty list `[]`, the guard `not data` is true, and
the error branch evaluates `data.get(...)` on a list.  The dedicated message
is dead code. -/
theorem claim4_list_branches_empty_attribute_error :
    make_github_request (GITHUB_API_BASE ++ "/repos/" ++ "o" ++ "/" ++ "r" ++ "/branches")
      (.response 200 "OK" (.json (Json.arr []))) = Json.arr [] ∧
    list_branches "o" "r" (.response 200 "OK" (.json (Json.arr []))) =
      .error (.attributeError "\x27list\x27 object has no attribute \x27get\x27") :=
  ⟨rfl, rfl⟩

/-- Claim C5 counterexample: a first-GET response from which no commit
identifier can be extracted — here the empty dict an empty 2xx body maps to —
makes `create_branch` return `"Unable to get source branch: Unknown error"`,
not the dedicated `"Unable to get source branch SHA."` (the POST is indeed
not issued: the trace holds only the GET). -/
theorem claim5_counterexample_error_dict_message :
    create_branch "o" "r" "nb" "main" (fun _ => .response 200 "OK" .empty) =
      .ok ("Unable to get source branch: Unknown error",
        [⟨GITHUB_API_BASE ++ "/repos/" ++ "o" ++ "/" ++ "r" ++ "/git/refs/heads/" ++ "main",
          "GET", none⟩]) ∧
    pyDictGet (Json.obj []) "object" (Json.obj []) = .ok (Json.obj []) ∧
    pyDictGet (Json.obj []) "sha" Json.null = .ok Json.null ∧
    Json.null.truthy = false ∧
    "Unable to get source branch: Unknown error" ≠ "Unable to get source branch SHA." :=
  ⟨rfl, rfl, rfl, rfl, by decide⟩

/-- Claim C5 (amended): in `create_branch`, for every first-GET response that
is truthy and carries no `"error"` field but from which no truthy commit
identifier (`"object"."sha"`) can be extracted, the create-reference POST is
never issued (the request trace holds only the GET) and the handler returns
`"Unable to get source branch SHA."`.  Responses that are falsy or carry an
`"error"` field also skip the POST but yield
`"Unable to get source branch: <message>"` instead. -/
theorem claim5_missing_sha_aborts (owner repo branch_name source_branch : String)
    (oracle : GithubRequest → HttpOutcome)
    (h1 : (make_github_request
        (GITHUB_API_BASE ++ "/repos/" ++ owner ++ "/" ++ repo ++ "/git/refs/heads/" ++
          source_branch)
        (oracle ⟨GITHUB_API_BASE ++ "/repos/" ++ owner ++ "/" ++ repo ++
          "/git/refs/heads/" ++ source_branch, "GET", none⟩)).truthy = true)
    (h2 : pyContains (make_github_request
        (GITHUB_API_BASE ++ "/repos/" ++ owner ++ "/" ++ repo ++ "/git/refs/heads/" ++
          source_branch)
        (oracle ⟨GITHUB_API_BASE ++ "/repos/" ++ owner ++ "/" ++ repo ++
          "/git/refs/heads/" ++ source_branch, "GET", none⟩)) "error" = .ok false)
    (h3 : ∃ objv sha, pyDictGet (make_github_request
        (GITHUB_API_BASE ++ "/repos/" ++ owner ++ "/" ++ repo ++ "/git/refs/heads/" ++
          source_branch)
        (oracle ⟨GITHUB_API_BASE ++ "/repos/" ++ owner ++ "/" ++ repo ++
          "/git/refs/heads/" ++ source_branch, "GET", none⟩)) "object" (.obj []) = .ok objv ∧
      pyDictGet objv "sha" .null = .ok sha ∧ sha.truthy = false) :
    create_branch owner repo branch_name source_branch oracle =
      .ok ("Unable to get source branch SHA.",
        [⟨GITHUB_API_BASE ++ "/repos/" ++ owner ++ "/" ++ repo ++ "/git/refs/heads/" ++
          source_branch, "GET", none⟩]) := by
  obtain ⟨objv, sha, hov, hsv, hsf⟩ := h3
  simp [create_branch, call_make_github_request_at, unexpectedKwarg,
    makeGithubRequestKeywords, h1, h2, hov, hsv, hsf,
    exceptBindOk, exceptBindErr, exceptMapOk, exceptMapErr, exceptPureEq]

/-- Claim C5 witness: the amended statement at a truthy, error-free GET
response that has no `"object"` field at all. -/
theorem claim5_witness_missing_sha :
    create_branch "o" "r" "nb" "main"
      (fun _ => .response 200 "OK" (.json (Json.obj [("ref", Json.str "refs/heads/main")]))) =
      .ok ("Unable to get source branch SHA.",
        [⟨GITHUB_API_BASE ++ "/repos/" ++ "o" ++ "/" ++ "r" ++ "/git/refs/heads/" ++ "main",
          "GET", none⟩]) :=
  claim5_missing_sha_aborts "o" "r" "nb" "main"
    (fun _ => .response 200 "OK" (.json (Json.obj [("ref", Json.str "refs/heads/main")])))
    rfl rfl ⟨Json.obj [], Json.null, rfl, rfl, rfl⟩

/-- Claim C6 counterexample: a legitimate 2xx payload that happens to contain
an `"error"` field is misclassified: `create_issue` renders the failure
string, not the formatted issue. -/
theorem claim6_counterexample_error_field :
    create_issue "o" "r" "t" "b" (.response 200 "OK" (.json (Json.obj
      [("number", Json.num 1), ("title", Json.str "t"), ("state", Json.str "open"),
       ("html_url", Json.str "u"), ("error", Json.str "nothing bad")]))) =
      .ok "Unable to create issue: nothing bad" ∧
    "Unable to create issue: nothing bad" ≠ "Issue #1\nTitle: t\nState: open\nURL: u" :=
  ⟨rfl, by decide⟩

/-- Claim C6 (amended): in the entity-creating handlers — `create_issue`,
`create_repository`, `create_pull_request`, `create_webhook` — whether a 2xx
JSON-object response is treated as success does depend on the payload's own
keys: any response dict containing an `"error"` key is rendered as the
handler's failure string carrying that field's value, so a legitimate success
payload that happens to contain an `"error"` field is misclassified there as
a failure. -/
theorem claim6_sentinel_misclassifies
    (owner repo title body name description head base hookUrl : String)
    (priv : Bool) (events : List String)
    (fields : List (String × Json)) (v : Json)
    (h : lookupField fields "error" = some v) :
    create_issue owner repo title body (.response 200 "OK" (.json (.obj fields))) =
      .ok ("Unable to create issue: " ++ pyStr v) ∧
    create_repository name description priv (.response 200 "OK" (.json (.obj fields))) =
      .ok ("Unable to create repository: " ++ pyStr v) ∧
    create_pull_request owner repo title head base body
      (.response 200 "OK" (.json (.obj fields))) =
      .ok ("Unable to create pull request: " ++ pyStr v) ∧
    create_webhook owner repo hookUrl events (.response 200 "OK" (.json (.obj fields))) =
      .ok ("Unable to create webhook: " ++ pyStr v) := by
  have hany := lookupField_any fields "error" v h
  have hne := lookupField_ne_nil fields "error" v h
  refine ⟨?_, ?_, ?_, ?_⟩
  · have hm := make_github_request_2xx_json
      (GITHUB_API_BASE ++ "/repos/" ++ owner ++ "/" ++ repo ++ "/issues") 200 "OK"
      (Json.obj fields) (by constructor <;> norm_num)
    simp [create_issue, call_make_github_request, unexpectedKwarg,
      makeGithubRequestKeywords, hm, Json.truthy, hne, pyContains, hany, pyDictGet, h,
      exceptBindOk, exceptBindErr, exceptMapOk, exceptMapErr, exceptPureEq]
  · have hm := make_github_request_2xx_json
      (GITHUB_API_BASE ++ "/user/repos") 200 "OK"
      (Json.obj fields) (by constructor <;> norm_num)
    simp [create_repository, call_make_github_request, unexpectedKwarg,
      makeGithubRequestKeywords, hm, Json.truthy, hne, pyContains, hany, pyDictGet, h,
      exceptBindOk, exceptBindErr, exceptMapOk, exceptMapErr, exceptPureEq]
  · have hm := make_github_request_2xx_json
      (GITHUB_API_BASE ++ "/repos/" ++ owner ++ "/" ++ repo ++ "/pulls") 200 "OK"
      (Json.obj fields) (by constructor <;> norm_num)
    simp [create_pull_request, call_make_github_request, unexpectedKwarg,
      makeGithubRequestKeywords, hm, Json.truthy, hne, pyContains, hany, pyDictGet, h,
      exceptBindOk, exceptBindErr, exceptMapOk, exceptMapErr, exceptPureEq]
  · have hm := make_github_request_2xx_json
      (GITHUB_API_BASE ++ "/repos/" ++ owner ++ "/" ++ repo ++ "/hooks") 200 "OK"
      (Json.obj fields) (by constructor <;> norm_num)
    simp [create_webhook, call_make_github_request, unexpectedKwarg,
      makeGithubRequestKeywords, hm, Json.truthy, hne, pyContains, hany, pyDictGet, h,
      exceptBindOk, exceptBindErr, exceptMapOk, exceptMapErr, exceptPureEq]

/-- Claim C6 witness: the amended statement at a concrete payload whose
`"error"` field holds `"oops"`. -/
theorem claim6_witness_sentinel :
    lookupField [("error", Json.str "oops"), ("number", Json.num 2)] "error" =
      some (Json.str "oops") ∧
    (create_issue "o" "r" "t" "b" (.response 200 "OK" (.json (Json.obj
        [("error", Json.str "oops"), ("number", Json.num 2)]))) =
      .ok "Unable to create issue: oops" ∧
    create_repository "n" "d" false (.response 200 "OK" (.json (Json.obj
        [("error", Json.str "oops"), ("number", Json.num 2)]))) =
      .ok "Unable to create repository: oops" ∧
    create_pull_request "o" "r" "t" "h" "m" "b" (.response 200 "OK" (.json (Json.obj
        [("error", Json.str "oops"), ("number", Json.num 2)]))) =
      .ok "Unable to create pull request: oops" ∧
    create_webhook "o" "r" "https://example.com/cb" ["push"]
      (.response 200 "OK" (.json (Json.obj
        [("error", Json.str "oops"), ("number", Json.num 2)]))) =
      .ok "Unable to create webhook: oops") :=
  ⟨rfl, claim6_sentinel_misclassifies "o" "r" "t" "b" "n" "d" "h" "m"
    "https://example.com/cb" false ["push"]
    [("error", Json.str "oops"), ("number", Json.num 2)] (Json.str "oops") rfl⟩

/-- Claim C7: for every URL and every outcome of the underlying HTTP call,
`make_github_request` returns exactly one result: either the `try` block
succeeded and its value is returned unchanged, or an exception was raised
inside the `try` block (network fault, non-2xx status via
`raise_for_status`, JSON decode failure) and it is downgraded to an
`\x7b"error": ...\x7d` dictionary — no exception propagates to the caller. -/
theorem claim7_executor_returns_classified_result (url : String) (o : HttpOutcome) :
    (∃ e, tryGithubRequest url o = .error e ∧
      make_github_request url o =
        Json.obj [("error", Json.str ("GitHub API request failed: " ++ e))]) ∨
    (∃ j, tryGithubRequest url o = .ok j ∧ make_github_request url o = j) := by
  cases h : tryGithubRequest url o with
  | ok j => exact Or.inr ⟨j, rfl, by simp [make_github_request, h]⟩
  | error e => exact Or.inl ⟨e, rfl, by simp [make_github_request, h]⟩

/-- Claim C8: `delete_repository("o","r")` against an upstream returning
HTTP 204 with an empty body yields the fixed success confirmation string,
not an error, because the executor maps a 2xx response with empty body to
the empty dict. -/
theorem claim8_delete_repository_204_success :
    make_github_request (GITHUB_API_BASE ++ "/repos/" ++ "o" ++ "/" ++ "r")
      (.response 204 "No Content" .empty) = Json.obj [] ∧
    delete_repository "o" "r" (.response 204 "No Content" .empty) =
      .ok "Repository o/r deleted successfully." :=
  ⟨rfl, rfl⟩

/-- Claim C9: for every 2xx status, a response with an empty body — which the
executor maps to the empty dict, a falsy value — makes each entity-creating
handler report its failure string with message `"Unknown error"` instead of a
formatted entity. -/
theorem claim9_create_handlers_empty_body_unknown_error
    (status : Nat)
    (reason owner repo title body name description head base hookUrl : String)
    (priv : Bool) (events : List String)
    (h : 200 ≤ status ∧ status < 300) :
    (∀ url, make_github_request url (.response status reason .empty) = Json.obj []) ∧
    create_issue owner repo title body (.response status reason .empty) =
      .ok "Unable to create issue: Unknown error" ∧
    create_repository name description priv (.response status reason .empty) =
      .ok "Unable to create repository: Unknown error" ∧
    create_pull_request owner repo title head base body (.response status reason .empty) =
      .ok "Unable to create pull request: Unknown error" ∧
    create_webhook owner repo hookUrl events (.response status reason .empty) =
      .ok "Unable to create webhook: Unknown error" := by
  refine ⟨fun url => make_github_request_2xx_empty url status reason h, ?_, ?_, ?_, ?_⟩
  · have hm := make_github_request_2xx_empty
      (GITHUB_API_BASE ++ "/repos/" ++ owner ++ "/" ++ repo ++ "/issues") status reason h
    simp [create_issue, call_make_github_request, unexpectedKwarg,
      makeGithubRequestKeywords, hm, Json.truthy, pyDictGet, lookupField, pyStr, pyRepr,
      exceptBindOk, exceptBindErr, exceptMapOk, exceptMapErr, exceptPureEq]
  · have hm := make_github_request_2xx_empty
      (GITHUB_API_BASE ++ "/user/repos") status reason h
    simp [create_repository, call_make_github_request, unexpectedKwarg,
      makeGithubRequestKeywords, hm, Json.truthy, pyDictGet, lookupField, pyStr, pyRepr,
      exceptBindOk, exceptBindErr, exceptMapOk, exceptMapErr, exceptPureEq]
  · have hm := make_github_request_2xx_empty
      (GITHUB_API_BASE ++ "/repos/" ++ owner ++ "/" ++ repo ++ "/pulls") status reason h
    simp [create_pull_request, call_make_github_request, unexpectedKwarg,
      makeGithubRequestKeywords, hm, Json.truthy, pyDictGet, lookupField, pyStr, pyRepr,
      exceptBindOk, exceptBindErr, exceptMapOk, exceptMapErr, exceptPureEq]
  · have hm := make_github_request_2xx_empty
      (GITHUB_API_BASE ++ "/repos/" ++ owner ++ "/" ++ repo ++ "/hooks") status reason h
    simp [create_webhook, call_make_github_request, unexpectedKwarg,
      makeGithubRequestKeywords, hm, Json.truthy, pyDictGet, lookupField, pyStr, pyRepr,
      exceptBindOk, exceptBindErr, exceptMapOk, exceptMapErr, exceptPureEq]

/-- Claim C9 witness: the statement instantiated at HTTP 204. -/
theorem claim9_witness_create_issue_204 :
    (200 ≤ 204 ∧ 204 < 300) ∧
    create_issue "o" "r" "t" "b" (.response 204 "No Content" .empty) =
      .ok "Unable to create issue: Unknown error" :=
  ⟨by decide, (claim9_create_handlers_empty_body_unknown_error 204 "No Content"
    "o" "r" "t" "b" "n" "d" "h" "m" "https://example.com/cb" false ["push"]
    (by decide)).2.1⟩

/-- Claim C10: `list_workflow_runs` formats at most the first 10 workflow
runs: given a success response whose `"workflow_runs"` list holds the
(object-shaped) runs `runs`, an empty list yields the dedicated message,
and a non-empty list yields exactly the first `min 10 runs.length` formatted
entries, in response order, joined by the fixed separator. -/
theorem claim10_list_workflow_runs_limits_to_ten (owner repo : String) (runs : List Json)
    (hobj : ∀ r ∈ runs, ∃ fs, r = Json.obj fs) :
    (runs = [] →
      list_workflow_runs owner repo none
        (.response 200 "OK" (.json (.obj [("workflow_runs", .arr runs)]))) =
        .ok "No workflow runs found.") ∧
    (runs ≠ [] →
      ∃ strs, mapExcept format_workflow_run (runs.take 10) = .ok strs ∧
        strs.length = min 10 runs.length ∧
        list_workflow_runs owner repo none
          (.response 200 "OK" (.json (.obj [("workflow_runs", .arr runs)]))) =
          .ok (String.intercalate "\n---\n" strs)) := by
  constructor
  · rintro rfl
    rfl
  · intro hr
    have hie : runs.isEmpty = false := by
      cases runs with
      | nil => exact absurd rfl hr
      | cons a t => rfl
    obtain ⟨strs, hmap, hlen⟩ := mapExcept_ok_of_ok format_workflow_run (runs.take 10)
      (fun r hrm => by
        obtain ⟨fs, rfl⟩ := hobj r (List.take_subset 10 runs hrm)
        exact ⟨_, rfl⟩)
    refine ⟨strs, hmap, ?_, ?_⟩
    · rw [hlen, List.length_take]
    · have hm := make_github_request_2xx_json
        (GITHUB_API_BASE ++ "/repos/" ++ owner ++ "/" ++ repo ++ "/actions/runs") 200 "OK"
        (Json.obj [("workflow_runs", Json.arr runs)]) (by constructor <;> norm_num)
      simp [list_workflow_runs, call_make_github_request, unexpectedKwarg,
        makeGithubRequestKeywords, hm, Json.truthy, pyContains, pyDictGet, lookupField,
        hie, pySliceTen, pyIter, hmap,
        exceptBindOk, exceptBindErr, exceptMapOk, exceptMapErr, exceptPureEq]

/-- Claim C10 witness: the statement applied to twelve runs, of which exactly
the first ten are formatted. -/
theorem claim10_witness_twelve_runs :
    sampleWorkflowRuns ≠ [] ∧
    (∃ strs, mapExcept format_workflow_run (sampleWorkflowRuns.take 10) = .ok strs ∧
      strs.length = min 10 sampleWorkflowRuns.length ∧
      list_workflow_runs "o" "r" none
        (.response 200 "OK" (.json (.obj [("workflow_runs", .arr sampleWorkflowRuns)]))) =
        .ok (String.intercalate "\n---\n" strs)) :=
  ⟨by intro h; exact List.noConfusion h,
   (claim10_list_workflow_runs_limits_to_ten "o" "r" sampleWorkflowRuns
      (by intro r hr; fin_cases hr <;> exact ⟨_, rfl⟩)).2
    (by intro h; exact List.noConfusion h)⟩
